import Mathlib

/-!
Shallow embedding of `src/blockchain.js` (class `Blockchain`) from the
star-registry ledger repository, together with the external collaborators
it uses (`block.js`, the SHA256 hash provider and the bitcoinjs-message
verifier, which are not part of the source tree and are modelled from the
specification).  All functions of the class return promises; an operation
is embedded as a pure function from its inputs and the pre-state to the
post-state together with an explicit outcome value.  An outcome records
whether the promise resolved, rejected with a particular value, or never
settled (an exception escaping a promise executor, or a loop that never
exits).
-/

/-- Digest produced by the external hash provider (crypto-js SHA256 in the
source).  The ledger code uses digests only through equality comparison, so
they are modelled as natural numbers and the provider as a parameter. -/
abbrev Digest := Nat

/-- The star-claim payload assembled by `submitStar` (blockchain.js lines
147-152): owner address, signature, message and the caller-defined star
descriptor (opaque, modelled as a string). -/
structure StarClaim where
  owner : String
  signature : String
  message : String
  star : String
deriving DecidableEq, Repr

/-- Modelled from the spec: `block.js` is not part of the source tree.  A
block body is either the genesis sentinel (not a decodable star claim) or
an encoded star claim; the hex/JSON encoding inside the Block entity is out
of scope, so the body is kept as this sum. -/
inductive Body where
  | genesis : Body
  | claim : StarClaim → Body
deriving DecidableEq, Repr

/-- Modelled from the spec: `Block.getBData` (from the missing `block.js`)
decodes the body and fails for the genesis sentinel body. -/
def getBData : Body → Option StarClaim
  | Body.genesis => none
  | Body.claim c => some c

/-- A block as stored in the chain array of blockchain.js after `_addBlock`
assigned its fields: height, time (seconds), previousBlockHash (null at
genesis, modelled as `none`), hash and body. -/
structure Block where
  height : Int
  time : Nat
  previousBlockHash : Option Digest
  hash : Digest
  body : Body
deriving DecidableEq, Repr

/-- The non-hash fields of a block.  Line 84 of blockchain.js stringifies
the block while its hash field still holds the constructor's null, so the
digest computed there depends exactly on these fields. -/
structure HashInput where
  height : Int
  time : Nat
  previousBlockHash : Option Digest
  body : Body
deriving DecidableEq, Repr

/-- The external hash provider, a parameter of every operation. -/
abbrev HashFn := HashInput → Digest

/-- The non-hash fields of an existing block. -/
def hashInputOf (b : Block) : HashInput :=
  HashInput.mk b.height b.time b.previousBlockHash b.body

/-- Modelled from the spec: `Block.validate` (from the missing `block.js`)
recomputes the hash over height, time, previousBlockHash and body and
compares it with the stored hash. -/
def blockValidate (H : HashFn) (b : Block) : Bool :=
  b.hash == H (hashInputOf b)

/-- The mutable state of the `Blockchain` class: the `chain` array and the
`height` counter (initialised to -1 by the constructor). -/
structure Blockchain where
  chain : List Block
  height : Int
deriving DecidableEq, Repr

/-- An entry pushed to `error_array` by `validateChain`: the failing block
itself (line 252/263) or the linkage message string (line 257). -/
inductive ValErr where
  | selfHash : Block → ValErr
  | linkage : ValErr
deriving DecidableEq, Repr

/-- Outcome of the `validateChain` promise.  `crashed` is the TypeError
raised by reading `.hash` of the `null` returned by a failed by-hash lookup
(line 256); it escapes the promise executor, so the promise never settles
and the rejection is unhandled.  `diverged` is a predecessor walk that
never reaches height 0. -/
inductive VcResult where
  | resolved : List ValErr → VcResult
  | crashed : VcResult
  | diverged : VcResult
deriving DecidableEq, Repr

/-- Outcome of the `_addBlock` promise.  `rejectedInvalid` is the
`Error("invalid")` rejection carrying `error_log` (lines 92-95);
`rejectedTypeError` is the TypeError from reading `.hash` of an undefined
tip (line 74-75), caught by the try/catch and turned into a rejection;
`crashed`/`diverged` mean the awaited `validateChain` promise never
settled, so `_addBlock` never settles either. -/
inductive AbResult where
  | resolved : Block → AbResult
  | rejectedInvalid : List ValErr → AbResult
  | rejectedTypeError : AbResult
  | crashed : AbResult
  | diverged : AbResult
deriving DecidableEq, Repr

/-- Outcome of the `submitStar` promise.  A rejection of the awaited
`_addBlock` escapes the executor (line 155 has no try/catch), so in every
non-resolved case of `_addBlock` the `submitStar` promise never settles:
that is `noSettle`. -/
inductive SsResult where
  | resolved : Block → SsResult
  | rejectedTimeout : SsResult
  | rejectedNotVerified : SsResult
  | noSettle : SsResult
deriving DecidableEq, Repr

/-- `getBlockByHash` (lines 173-185): first block of the chain array whose
hash strictly equals the searched value, `none` (null) when absent.  The
argument is an Option because the call site at line 255 passes a
`previousBlockHash`, which may itself be null. -/
def getBlockByHash (s : Blockchain) (h : Option Digest) : Option Block :=
  (s.chain.filter (fun p => some p.hash == h)).head?

/-- The while loop of `validateChain` (lines 249-259) followed by the
genesis self-check (lines 261-264).  `fuel` bounds the predecessor walk;
`chain.length + 1` steps are enough for every terminating run, because a
walk that revisits a block value repeats forever (the successor of a block
is a function of its `previousBlockHash` alone), which `diverged` models. -/
def validateLoop (H : HashFn) (s : Blockchain) :
    Nat → Block → List ValErr → VcResult
  | 0, _, _ => VcResult.diverged
  | Nat.succ fuel, latest, acc =>
    if latest.height > 0 then
      let acc1 := if blockValidate H latest then acc else acc ++ [ValErr.selfHash latest]
      match getBlockByHash s latest.previousBlockHash with
      | none => VcResult.crashed
      | some nb =>
        let acc2 := if latest.previousBlockHash == some nb.hash then acc1
                    else acc1 ++ [ValErr.linkage]
        validateLoop H s fuel nb acc2
    else
      VcResult.resolved (if blockValidate H latest then acc else acc ++ [ValErr.selfHash latest])

/-- `validateChain` (lines 242-269): with an empty chain it resolves with
the empty error list; otherwise it starts the walk at `chain[length-1]`. -/
def validateChain (H : HashFn) (s : Blockchain) : VcResult :=
  match s.chain.getLast? with
  | none => VcResult.resolved []
  | some latest => validateLoop H s (s.chain.length + 1) latest []

/-- The block built by `_addBlock` (lines 73-84): previousBlockHash from
the tip when present, height `self.height + 1`, the current time in
seconds, and the hash computed by the provider over the non-hash fields
(the block's hash field still holds null when line 84 stringifies it). -/
def mkAppendedBlock (H : HashFn) (now : Nat) (prev : Option Digest) (h : Int) (body : Body) :
    Block :=
  Block.mk h now prev (H (HashInput.mk h now prev body)) body

/-- How the result of the awaited `validateChain` decides `_addBlock`'s
outcome (lines 89-96): an empty log resolves with the block, a non-empty
log rejects with `Error("invalid")`, and a validation promise that never
settles leaves `_addBlock` pending forever. -/
def addBlockOutcome (v : VcResult) (b : Block) : AbResult :=
  match v with
  | VcResult.resolved log => if log = [] then AbResult.resolved b else AbResult.rejectedInvalid log
  | VcResult.crashed => AbResult.crashed
  | VcResult.diverged => AbResult.diverged

/-- The push and height update of `_addBlock` (lines 77-87) followed by the
post-append validation: the block is appended and the counter advanced
before validation runs, and nothing is rolled back afterwards. -/
def addBlockCore (H : HashFn) (now : Nat) (s : Blockchain) (prev : Option Digest) (body : Body) :
    Blockchain × AbResult :=
  let b := mkAppendedBlock H now prev (s.height + 1) body
  let s1 := Blockchain.mk (s.chain ++ [b]) (s.height + 1)
  (s1, addBlockOutcome (validateChain H s1) b)

/-- `_addBlock` (lines 68-101).  When `self.height >= 0` the tip is read at
`chain[self.height]`; if that slot is undefined the `.hash` access throws
inside the try block and the promise rejects with the TypeError, leaving
the state unchanged. -/
def addBlock (H : HashFn) (now : Nat) (s : Blockchain) (body : Body) :
    Blockchain × AbResult :=
  if 0 ≤ s.height then
    match s.chain.get? s.height.toNat with
    | none => (s, AbResult.rejectedTypeError)
    | some pb => addBlockCore H now s (some pb.hash) body
  else
    addBlockCore H now s none body

/-- The constructor (lines 29-33) followed by `initializeChain` (lines
40-45): chain empty, height -1, then the genesis block with the sentinel
body is added through `_addBlock`.  The resulting state is the state after
initialization completes. -/
def newBlockchain (H : HashFn) (now : Nat) : Blockchain :=
  (addBlock H now (Blockchain.mk [] (-1)) Body.genesis).1

/-- JS `String.split` with a one-character separator, as a structural
recursion over the character list: splitting the empty string gives one
empty field, and a separator closes the current field. -/
def splitChar (sep : Char) : List Char → List (List Char)
  | [] => [[]]
  | x :: xs =>
    match splitChar sep xs with
    | [] => [[]]
    | y :: ys => if x = sep then [] :: y :: ys else (x :: y) :: ys

/-- JS `parseInt` restricted to what the source feeds it: optional leading
whitespace and sign, then leading base-ten digits; `none` models NaN (no
digits).  The hexadecimal prefix form of `parseInt` cannot arise from a
colon-delimited timestamp field. -/
def parseIntJs (field : List Char) : Option Int :=
  let chars := field.dropWhile Char.isWhitespace
  let signed : Int × List Char :=
    match chars with
    | c :: rest => if c = '-' then (-1, rest) else if c = '+' then (1, rest) else (1, chars)
    | [] => (1, [])
  let ds := signed.2.takeWhile Char.isDigit
  if ds.isEmpty then none
  else some (signed.1 * ds.foldl (fun a c => a * 10 + ((c.toNat : Int) - 48)) 0)

/-- Line 141: `parseInt(message.split(...)[1])`, the second colon-delimited
field of the message parsed as an integer; `none` models NaN (field missing
or not numeric). -/
def messageTime (message : String) : Option Int :=
  ((splitChar ':' message.toList).get? 1).bind parseIntJs

/-- The freshness test of `submitStar` (lines 141-144): elapsed minutes
`(currentTime - message_time) / 60` compared with 5.  Over integers
`(now - t) / 60 <= 5` is exactly `now - t <= 300` (both times are whole
numbers of seconds, exactly representable, and `/ 60` cannot round across
the representable bound 5).  When the embedded time is NaN the comparison
is false, as every comparison with NaN is. -/
def freshCheck (now : Nat) (message : String) : Bool :=
  match messageTime message with
  | none => false
  | some t => decide ((now : Int) - t ≤ 300)

/-- `submitStar` (lines 137-165): freshness test, then the signature
verifier (a parameter: bitcoinjs-message is external), then the star-claim
data object of lines 147-152 is wrapped in a block and delegated to
`_addBlock`.  The awaited `_addBlock` result is resolved through; any
non-resolved `_addBlock` outcome leaves the promise unsettled (`noSettle`),
because the executor has no try/catch around the await. -/
def submitStar (H : HashFn) (verify : String → String → String → Bool) (now : Nat)
    (s : Blockchain) (address message signature star : String) :
    Blockchain × SsResult :=
  if freshCheck now message then
    if verify message address signature then
      let r := addBlock H now s (Body.claim (StarClaim.mk address signature message star))
      (r.1, match r.2 with
            | AbResult.resolved b => SsResult.resolved b
            | _ => SsResult.noSettle)
    else (s, SsResult.rejectedNotVerified)
  else (s, SsResult.rejectedTimeout)

/-- One step of the scan of `getStarsByWalletAddress` (lines 218-230): a
decodable body whose owner matches is pushed to the star array, a decode
failure is pushed to the error array, anything else leaves both untouched. -/
def starScanStep (address : String) (acc : List StarClaim × List Block) (b : Block) :
    List StarClaim × List Block :=
  match getBData b.body with
  | some d => if d.owner == address then (acc.1 ++ [d], acc.2) else acc
  | none => (acc.1, acc.2 ++ [b])

/-- `getStarsByWalletAddress` (lines 211-233): one pass over the chain
array in order.  The promise resolves with the first component
(`star_array`) only; the second component is the local `error_array`, which
records decode failures and is dropped when the promise resolves. -/
def getStarsByWalletAddress (s : Blockchain) (address : String) :
    List StarClaim × List Block :=
  s.chain.foldl (starScanStep address) ([], [])

/-- The decode-and-filter of one block as `getStarsByWalletAddress`
performs it: the decoded body when it decodes and its owner matches. -/
def starDecode (address : String) (b : Block) : Option StarClaim :=
  (getBData b.body).bind (fun d => if d.owner == address then some d else none)

/-- The invariant of the chain state stated by the specification: the chain
is non-empty and `length - 1` equals both the height counter and the height
recorded in the last block. -/
def ChainInv (s : Blockchain) : Prop :=
  s.chain ≠ [] ∧ (s.chain.length : Int) - 1 = s.height ∧
  s.chain.getLast?.map Block.height = some ((s.chain.length : Int) - 1)

/-- Well-formedness established by construction: the height counter is one
less than the length and every block's recorded height equals its position
in the chain array (so the array is in ascending height order). -/
def Wf (s : Blockchain) : Prop :=
  (s.chain.length : Int) = s.height + 1 ∧
  ∀ i, i < s.chain.length → (s.chain.get? i).map Block.height = some (i : Int)

instance (s : Blockchain) : Decidable (ChainInv s) := by
  unfold ChainInv; infer_instance

instance (s : Blockchain) : Decidable (Wf s) := by
  unfold Wf; infer_instance

/-- Constant hash provider used for concrete evaluations: any function is a
legitimate instance of the out-of-scope provider. -/
def H0 : HashFn := fun _ => 0

/-- Height-valued hash provider used for concrete evaluations where
distinct digests are needed. -/
def Hh : HashFn := fun hi => hi.height.toNat

/-- A verifier that accepts everything. -/
def vTrue : String → String → String → Bool := fun _ _ _ => true

/-- A verifier that rejects everything. -/
def vFalse : String → String → String → Bool := fun _ _ _ => false

/-- The state after initialization under `H0` at time 0: the genesis chain. -/
def s0 : Blockchain := newBlockchain H0 0

/-- The genesis block of `s0`: height 0, time 0, no previous hash, digest 0
under `H0`, sentinel body. -/
def gW : Block := Block.mk 0 0 none 0 Body.genesis

/-- The block `addBlock H0 1 s0 Body.genesis` appends. -/
def bW : Block := Block.mk 1 1 (some 0) 0 Body.genesis

/-- A chain whose genesis block carries a stored hash (7) that the provider
cannot reproduce: its self-validation fails, so any append to it fails
post-append validation. -/
def gTampered : Block := Block.mk 0 0 none 7 Body.genesis

/-- State holding only `gTampered`, with height counter 0. -/
def sTampered : Blockchain := Blockchain.mk [gTampered] 0

/-- Genesis block with digest 0 under the height-valued provider `Hh`. -/
def gA : Block := Block.mk 0 0 none 0 Body.genesis

/-- A height-1 block whose `previousBlockHash` (5) matches no stored block:
the by-hash lookup during validation returns null for it. -/
def bDangling : Block := Block.mk 1 0 (some 5) 1 Body.genesis

/-- Chain where the validation walk meets a failed by-hash lookup. -/
def c2state : Blockchain := Blockchain.mk [gA, bDangling] 1

/-- A height-1 block correctly linked to `gA` under `Hh`. -/
def bLinked : Block := Block.mk 1 1 (some 0) 1 Body.genesis

/-- A height-2 block whose `previousBlockHash` was redirected to the
genesis digest (0) instead of its true predecessor's digest (1); under the
height-valued provider its self-hash still checks out, isolating the
linkage fault. -/
def bMutated : Block := Block.mk 2 2 (some 0) 2 Body.genesis

/-- Chain with a genuinely broken link (`bMutated` skips `bLinked`). -/
def c2stateB : Blockchain := Blockchain.mk [gA, bLinked, bMutated] 2

/-- The challenge message used in concrete runs. -/
def msgW : String := "a:100:starRegistry"

/-- The block `submitStar H0 vTrue 100 s0 "a" msgW "sig" "st"` appends. -/
def bW2 : Block := Block.mk 1 100 (some 0) 0 (Body.claim (StarClaim.mk "a" "sig" msgW "st"))

/-- A decodable claim owned by address a, for query runs. -/
def claimA : StarClaim := StarClaim.mk "a" "sg" "m1" "star1"

/-- A decodable claim owned by address b, for query runs. -/
def claimB : StarClaim := StarClaim.mk "b" "sg2" "m2" "star2"

/-- A well-formed three-block chain carrying one star for each of two
owners on top of the undecodable genesis sentinel. -/
def sStars : Blockchain := Blockchain.mk
  [Block.mk 0 0 none 0 Body.genesis,
   Block.mk 1 1 (some 0) 1 (Body.claim claimA),
   Block.mk 2 2 (some 1) 2 (Body.claim claimB)] 2

theorem addBlockCore_fst (H : HashFn) (now : Nat) (s : Blockchain) (prev : Option Digest)
    (body : Body) :
    (addBlockCore H now s prev body).1
      = Blockchain.mk (s.chain ++ [mkAppendedBlock H now prev (s.height + 1) body])
          (s.height + 1) := rfl

theorem addBlock_cases (H : HashFn) (now : Nat) (s : Blockchain) (body : Body) :
    (∃ pb, 0 ≤ s.height ∧ s.chain.get? s.height.toNat = some pb ∧
        addBlock H now s body = addBlockCore H now s (some pb.hash) body)
    ∨ (0 ≤ s.height ∧ s.chain.get? s.height.toNat = none ∧
        addBlock H now s body = (s, AbResult.rejectedTypeError))
    ∨ (s.height < 0 ∧ addBlock H now s body = addBlockCore H now s none body) := by
  by_cases h : 0 ≤ s.height
  · cases hg : s.chain.get? s.height.toNat with
    | none => exact Or.inr (Or.inl ⟨h, rfl, by unfold addBlock; rw [if_pos h, hg]⟩)
    | some pb => exact Or.inl ⟨pb, h, rfl, by unfold addBlock; rw [if_pos h, hg]⟩
  · exact Or.inr (Or.inr ⟨by omega, by unfold addBlock; rw [if_neg h]⟩)

theorem addBlockOutcome_resolved_eq (v : VcResult) (b c : Block)
    (h : addBlockOutcome v b = AbResult.resolved c) : c = b := by
  cases v with
  | resolved log =>
    by_cases hl : log = []
    · rw [addBlockOutcome, if_pos hl] at h
      cases h
      rfl
    · rw [addBlockOutcome, if_neg hl] at h
      cases h
  | crashed => cases h
  | diverged => cases h

theorem addBlock_appends (H : HashFn) (now : Nat) (s : Blockchain) (body : Body)
    (h : (addBlock H now s body).2 ≠ AbResult.rejectedTypeError) :
    ∃ b, (addBlock H now s body).1 = Blockchain.mk (s.chain ++ [b]) (s.height + 1)
       ∧ b.hash = H (hashInputOf b) ∧ b.body = body ∧ b.height = s.height + 1 := by
  rcases addBlock_cases H now s body with ⟨pb, _, _, he⟩ | ⟨_, _, he⟩ | ⟨_, he⟩
  · exact he ▸ ⟨mkAppendedBlock H now (some pb.hash) (s.height + 1) body, rfl, rfl, rfl, rfl⟩
  · rw [he] at h
    exact absurd rfl h
  · exact he ▸ ⟨mkAppendedBlock H now none (s.height + 1) body, rfl, rfl, rfl, rfl⟩

theorem addBlock_resolved_shape (H : HashFn) (now : Nat) (s : Blockchain) (body : Body)
    (b : Block) (h : (addBlock H now s body).2 = AbResult.resolved b) :
    (addBlock H now s body).1 = Blockchain.mk (s.chain ++ [b]) (s.height + 1)
    ∧ b.body = body ∧ b.height = s.height + 1 := by
  rcases addBlock_cases H now s body with ⟨pb, _, _, he⟩ | ⟨_, _, he⟩ | ⟨_, he⟩
  · rw [he] at h ⊢
    have hb := addBlockOutcome_resolved_eq _ _ _ h
    subst hb
    exact ⟨rfl, rfl, rfl⟩
  · rw [he] at h
    cases h
  · rw [he] at h ⊢
    have hb := addBlockOutcome_resolved_eq _ _ _ h
    subst hb
    exact ⟨rfl, rfl, rfl⟩

/-- C3: every block appended by `_addBlock` carries a stored hash computed
by the provider over exactly the block's non-hash fields (height, time,
previousBlockHash, body); the hash field itself (still null at line 84) is
excluded.  The hypothesis excludes only the run in which reading the tip
slot throws and nothing is appended at all. -/
theorem C3_appended_hash_excludes_hash (H : HashFn) (now : Nat) (s : Blockchain) (body : Body)
    (h : (addBlock H now s body).2 ≠ AbResult.rejectedTypeError) :
    ∃ b, (addBlock H now s body).1.chain = s.chain ++ [b] ∧ b.hash = H (hashInputOf b) := by
  obtain ⟨b, hs, hh, _, _⟩ := addBlock_appends H now s body h
  exact ⟨b, by rw [hs], hh⟩

/-- Witness for C3: appending to the genesis chain under the constant
provider succeeds, and the appended block's hash is the provider's digest
of its non-hash fields. -/
theorem C3_witness :
    ((addBlock H0 1 s0 Body.genesis).2 ≠ AbResult.rejectedTypeError)
    ∧ ∃ b, (addBlock H0 1 s0 Body.genesis).1.chain = s0.chain ++ [b]
        ∧ b.hash = H0 (hashInputOf b) :=
  ⟨by decide, C3_appended_hash_excludes_hash H0 1 s0 Body.genesis (by decide)⟩

/-- C9: when `_addBlock` rejects with the VALIDATION_FAILURE error
(`Error("invalid")` carrying the error log), the state change is not rolled
back: the new block is still at the end of the chain array and the height
counter is still advanced. -/
theorem C9_validation_failure_not_rolled_back (H : HashFn) (now : Nat) (s : Blockchain)
    (body : Body) (h : ∃ log, (addBlock H now s body).2 = AbResult.rejectedInvalid log) :
    ∃ b, (addBlock H now s body).1.chain = s.chain ++ [b]
       ∧ (addBlock H now s body).1.height = s.height + 1 := by
  obtain ⟨log, hlog⟩ := h
  have hne : (addBlock H now s body).2 ≠ AbResult.rejectedTypeError := by
    rw [hlog]
    intro hc
    cases hc
  obtain ⟨b, hs, _, _, _⟩ := addBlock_appends H now s body hne
  exact ⟨b, by rw [hs], by rw [hs]⟩

/-- Witness for C9: appending to a chain whose stored genesis hash the
provider cannot reproduce makes post-append validation fail, the append
rejects with the error log, and the new block and advanced counter
remain. -/
theorem C9_witness :
    (∃ log, (addBlock H0 3 sTampered Body.genesis).2 = AbResult.rejectedInvalid log)
    ∧ ∃ b, (addBlock H0 3 sTampered Body.genesis).1.chain = sTampered.chain ++ [b]
        ∧ (addBlock H0 3 sTampered Body.genesis).1.height = sTampered.height + 1 :=
  ⟨⟨[ValErr.selfHash gTampered], by decide⟩,
   C9_validation_failure_not_rolled_back H0 3 sTampered Body.genesis
     ⟨[ValErr.selfHash gTampered], by decide⟩⟩

/-- C2 is a code bug; this theorem evaluates the embedded `validateChain`
at the two deciding inputs.  First: on a chain whose tip's
`previousBlockHash` (5) matches no stored block, the by-hash lookup
resolves null and line 256 reads `.hash` of null, so validation crashes
instead of recording a linkage error and resolving with the error list.
Second: on a chain whose height-2 block was relinked to the genesis digest
(skipping its true predecessor), validation resolves with the EMPTY list:
the mismatch test of line 256 compares the looked-up block's hash with the
very key used to look it up, so the linkage-error push of line 257 is
unreachable whenever the lookup succeeds. -/
theorem C2_linkage_error_never_recorded :
    validateChain Hh c2state = VcResult.crashed
    ∧ validateChain Hh c2stateB = VcResult.resolved [] := by
  constructor <;> rfl

/-- C8: a message without a parseable second colon-delimited field has a
NaN embedded time, every NaN comparison is false, and `submitStar` takes
the same rejection branch as an expired message: it rejects with the
timeout error, appends nothing, and introduces no distinct
malformed-message error kind. -/
theorem C8_malformed_message_rejects (H : HashFn) (verify : String → String → String → Bool)
    (now : Nat) (s : Blockchain) (a msg sig st : String) (h : messageTime msg = none) :
    submitStar H verify now s a msg sig st = (s, SsResult.rejectedTimeout) := by
  have hf : freshCheck now msg = false := by
    unfold freshCheck
    rw [h]
  unfold submitStar
  rw [hf]
  simp

/-- Witness for C8: a message with no colon at all parses to NaN and the
redemption rejects with the timeout error, leaving the state unchanged,
even though the verifier would have accepted. -/
theorem C8_witness :
    messageTime "justonefield" = none
    ∧ submitStar H0 vTrue 100 s0 "a" "justonefield" "sig" "st" = (s0, SsResult.rejectedTimeout) :=
  ⟨by decide, C8_malformed_message_rejects H0 vTrue 100 s0 "a" "justonefield" "sig" "st" (by decide)⟩

theorem submitStar_timeout_iff_not_fresh (H : HashFn) (verify : String → String → String → Bool)
    (now : Nat) (s : Blockchain) (a msg sig st : String) :
    (submitStar H verify now s a msg sig st).2 = SsResult.rejectedTimeout
      ↔ freshCheck now msg = false := by
  constructor
  · intro h
    by_contra hf
    have hf2 : freshCheck now msg = true := by
      cases hb : freshCheck now msg
      · exact absurd hb hf
      · rfl
    unfold submitStar at h
    rw [hf2] at h
    simp only [if_true] at h
    by_cases hv : verify msg a sig
    · rw [if_pos hv] at h
      cases hab : (addBlock H now s (Body.claim (StarClaim.mk a sig msg st))).2 <;>
        simp [hab] at h
    · rw [if_neg hv] at h
      cases h
  · intro h
    unfold submitStar
    rw [h]
    simp

/-- C4 as amended: `submitStar` rejects with the timeout (EXPIRED) error
exactly when the embedded timestamp is unparseable (NaN) or more than 300
seconds older than the current time; in particular a message timestamped
301 seconds in the past rejects with EXPIRED under every verifier,
accepting ones included. -/
theorem C4_expired_condition (H : HashFn) (verify : String → String → String → Bool)
    (now : Nat) (s : Blockchain) (a msg sig st : String) :
    ((submitStar H verify now s a msg sig st).2 = SsResult.rejectedTimeout
      ↔ (messageTime msg = none ∨ ∃ t, messageTime msg = some t ∧ 300 < (now : Int) - t))
    ∧ (∀ t, messageTime msg = some t → (now : Int) - t = 301 →
        (submitStar H verify now s a msg sig st).2 = SsResult.rejectedTimeout) := by
  have hiff : freshCheck now msg = false
      ↔ (messageTime msg = none ∨ ∃ t, messageTime msg = some t ∧ 300 < (now : Int) - t) := by
    unfold freshCheck
    cases hmt : messageTime msg with
    | none => simp
    | some t =>
      simp only [decide_eq_false_iff_not, not_le, Option.some.injEq]
      constructor
      · intro h
        exact Or.inr ⟨t, rfl, h⟩
      · rintro (hc | ⟨t2, ht2, hgt⟩)
        · cases hc
        · cases ht2
          exact hgt
  constructor
  · exact (submitStar_timeout_iff_not_fresh H verify now s a msg sig st).trans hiff
  · intro t ht h301
    rw [submitStar_timeout_iff_not_fresh H verify now s a msg sig st, hiff]
    exact Or.inr ⟨t, ht, by omega⟩

/-- Witness for C4's amended theorem: a message timestamped 100, redeemed
at time 401 (301 seconds later) under an always-accepting verifier, rejects
with the timeout error. -/
theorem C4_witness :
    messageTime msgW = some 100 ∧ ((401 : Nat) : Int) - 100 = 301
    ∧ (submitStar H0 vTrue 401 s0 "a" msgW "sig" "st").2 = SsResult.rejectedTimeout :=
  ⟨by decide, by decide,
   (C4_expired_condition H0 vTrue 401 s0 "a" msgW "sig" "st").2 100 (by decide) (by decide)⟩

/-- Counterexample for C4 as stated: for a message with no parseable
embedded timestamp the elapsed time is NaN, which does not exceed 5
minutes, yet the redemption rejects with the very timeout (EXPIRED) error
-- so EXPIRED does not occur exactly when the elapsed minutes exceed 5,
even under a verifier that accepts. -/
theorem C4_counterexample :
    (submitStar H0 vTrue 1000 s0 "a" "nocolonmessage" "sig" "st").2 = SsResult.rejectedTimeout
    ∧ ¬ (∃ t, messageTime "nocolonmessage" = some t ∧ 300 < (1000 : Int) - t) := by
  constructor
  · decide
  · rintro ⟨t, ht, _⟩
    have hn : messageTime "nocolonmessage" = none := by decide
    rw [hn] at ht
    cases ht

/-- C10: a message whose embedded timestamp is at or later than the current
time has a non-positive elapsed time, so the freshness check passes and the
redemption is never rejected as expired. -/
theorem C10_future_message_passes_freshness (H : HashFn)
    (verify : String → String → String → Bool) (now : Nat) (s : Blockchain)
    (a msg sig st : String) (t : Int) (ht : messageTime msg = some t)
    (hfut : (now : Int) ≤ t) :
    freshCheck now msg = true
    ∧ (submitStar H verify now s a msg sig st).2 ≠ SsResult.rejectedTimeout := by
  have hf : freshCheck now msg = true := by
    unfold freshCheck
    rw [ht]
    simp only [decide_eq_true_eq]
    omega
  refine ⟨hf, ?_⟩
  intro hto
  rw [submitStar_timeout_iff_not_fresh H verify now s a msg sig st] at hto
  rw [hf] at hto
  cases hto

/-- Witness for C10: a message timestamped 500 redeemed at time 400 (100
seconds in the future) passes the freshness check and is not rejected as
expired. -/
theorem C10_witness :
    messageTime "a:500:starRegistry" = some 500 ∧ ((400 : Nat) : Int) ≤ 500
    ∧ (freshCheck 400 "a:500:starRegistry" = true
        ∧ (submitStar H0 vFalse 400 s0 "a" "a:500:starRegistry" "sig" "st").2
            ≠ SsResult.rejectedTimeout) :=
  ⟨by decide, by decide,
   C10_future_message_passes_freshness H0 vFalse 400 s0 "a" "a:500:starRegistry" "sig" "st" 500
     (by decide) (by decide)⟩

theorem chainInv_addBlockCore (H : HashFn) (now : Nat) (s : Blockchain) (prev : Option Digest)
    (body : Body) (h : ChainInv s) : ChainInv (addBlockCore H now s prev body).1 := by
  obtain ⟨hne, hlen, hlast⟩ := h
  rw [addBlockCore_fst]
  refine ⟨by simp, ?_, ?_⟩
  · simp only [List.length_append, List.length_cons, List.length_nil]
    push_cast
    omega
  · rw [List.getLast?_concat]
    have hlen2 : (((s.chain ++ [mkAppendedBlock H now prev (s.height + 1) body]).length : Int))
        - 1 = s.height + 1 := by
      simp only [List.length_append, List.length_cons, List.length_nil]
      push_cast
      omega
    rw [hlen2]
    rfl

theorem chainInv_addBlock (H : HashFn) (now : Nat) (s : Blockchain) (body : Body)
    (h : ChainInv s) : ChainInv (addBlock H now s body).1 := by
  rcases addBlock_cases H now s body with ⟨pb, _, _, he⟩ | ⟨_, _, he⟩ | ⟨_, he⟩
  · rw [he]
    exact chainInv_addBlockCore H now s (some pb.hash) body h
  · rw [he]
    exact h
  · rw [he]
    exact chainInv_addBlockCore H now s none body h

theorem chainInv_newBlockchain (H : HashFn) (now : Nat) : ChainInv (newBlockchain H now) :=
  ⟨List.cons_ne_nil _ _, rfl, rfl⟩

theorem chainInv_submitStar (H : HashFn) (verify : String → String → String → Bool)
    (now : Nat) (s : Blockchain) (a msg sig st : String) (h : ChainInv s) :
    ChainInv (submitStar H verify now s a msg sig st).1 := by
  unfold submitStar
  by_cases hf : freshCheck now msg = true
  · rw [if_pos hf]
    by_cases hv : verify msg a sig = true
    · rw [if_pos hv]
      exact chainInv_addBlock H now s (Body.claim (StarClaim.mk a sig msg st)) h
    · rw [if_neg hv]
      exact h
  · rw [if_neg hf]
    exact h

/-- C6: initialization yields a non-empty chain satisfying the invariant
that chain length minus one equals both the height counter and the height
recorded in the last block, and the state-mutating public operations
(`_addBlock` and `submitStar`, the latter delegating to the former)
preserve that invariant at every outcome, the validation-failure rejection
included.  The query operations (`getChainHeight`, `getBlockByHash`,
`getBlockByHeight`, `getStarsByWalletAddress`, `validateChain`) are
embedded as functions that return no successor state because they never
assign to `this.chain` or `this.height`, so they preserve every state
property trivially. -/
theorem C6_initialization_and_invariant (H : HashFn) (now0 : Nat) :
    ChainInv (newBlockchain H now0)
    ∧ (∀ now s body, ChainInv s → ChainInv (addBlock H now s body).1)
    ∧ (∀ verify now s a msg sig st, ChainInv s →
        ChainInv (submitStar H verify now s a msg sig st).1) :=
  ⟨chainInv_newBlockchain H now0,
   fun now s body h => chainInv_addBlock H now s body h,
   fun verify now s a msg sig st h => chainInv_submitStar H verify now s a msg sig st h⟩

/-- Witness for C6: the invariant holds for the freshly initialized chain,
after a further append, and after a complete star submission. -/
theorem C6_witness :
    ChainInv s0
    ∧ ChainInv (addBlock H0 1 s0 Body.genesis).1
    ∧ ChainInv (submitStar H0 vTrue 100 s0 "a" msgW "sig" "st").1 :=
  ⟨(C6_initialization_and_invariant H0 0).1,
   (C6_initialization_and_invariant H0 0).2.1 1 s0 Body.genesis
     (C6_initialization_and_invariant H0 0).1,
   (C6_initialization_and_invariant H0 0).2.2 vTrue 100 s0 "a" msgW "sig" "st"
     (C6_initialization_and_invariant H0 0).1⟩

/-- C1: on any state satisfying the invariant (so the chain is non-empty,
of height `h >= 0`), a successful `_addBlock` resolves with a block whose
height is `h + 1`, whose `previousBlockHash` is the hash of the block that
was the tip before the append, and which is the last element of the
resulting chain. -/
theorem C1_append_extends_tip (H : HashFn) (now : Nat) (s : Blockchain) (body : Body)
    (tip b : Block) (hinv : ChainInv s) (htip : s.chain.getLast? = some tip)
    (hok : (addBlock H now s body).2 = AbResult.resolved b) :
    b.height = s.height + 1 ∧ b.previousBlockHash = some tip.hash
    ∧ (addBlock H now s body).1.chain.getLast? = some b := by
  obtain ⟨hne, hlen, _⟩ := hinv
  have hlp : 0 < s.chain.length := List.length_pos.2 hne
  have hlpz : (1 : Int) ≤ (s.chain.length : Int) := by exact_mod_cast hlp
  have hh : 0 ≤ s.height := by omega
  have htn : s.height.toNat = s.chain.length - 1 := by omega
  have hget : s.chain.get? s.height.toNat = some tip := by
    rw [htn, ← List.getLast?_eq_get?]
    exact htip
  have he : addBlock H now s body = addBlockCore H now s (some tip.hash) body := by
    unfold addBlock
    rw [if_pos hh, hget]
  rw [he] at hok ⊢
  have hb := addBlockOutcome_resolved_eq _ _ _ hok
  subst hb
  refine ⟨rfl, rfl, ?_⟩
  rw [addBlockCore_fst]
  exact List.getLast?_concat _

/-- Witness for C1: appending to the genesis chain resolves with the block
`bW`, whose height is 1, whose previousBlockHash is the genesis digest, and
which is the new tip. -/
theorem C1_witness :
    ChainInv s0 ∧ s0.chain.getLast? = some gW
    ∧ (addBlock H0 1 s0 Body.genesis).2 = AbResult.resolved bW
    ∧ (bW.height = s0.height + 1 ∧ bW.previousBlockHash = some gW.hash
        ∧ (addBlock H0 1 s0 Body.genesis).1.chain.getLast? = some bW) :=
  ⟨by decide, by decide, by decide,
   C1_append_extends_tip H0 1 s0 Body.genesis gW bW (by decide) (by decide) (by decide)⟩

theorem starScan_foldl (address : String) (l : List Block) (acc : List StarClaim × List Block) :
    l.foldl (starScanStep address) acc
      = (acc.1 ++ l.filterMap (starDecode address),
         acc.2 ++ l.filter (fun b => (getBData b.body).isNone)) := by
  induction l generalizing acc with
  | nil => simp
  | cons b l ih =>
    rw [List.foldl_cons, ih]
    cases hb : getBData b.body with
    | none =>
      simp only [starScanStep, starDecode, hb, List.filterMap_cons, List.filter_cons,
        Option.isNone_none, Option.none_bind, if_true, List.append_assoc,
        List.singleton_append]
    | some d =>
      by_cases ho : d.owner = address
      · simp [starScanStep, starDecode, hb, ho, List.filterMap_cons, List.filter_cons]
      · simp [starScanStep, starDecode, hb, ho, List.filterMap_cons, List.filter_cons]

theorem wf_heights_ascending (s : Blockchain) (hwf : Wf s) :
    s.chain.Pairwise (fun x y => x.height < y.height) := by
  rw [List.pairwise_iff_get]
  intro i j hij
  have hi := hwf.2 i.1 i.2
  have hj := hwf.2 j.1 j.2
  rw [List.get?_eq_get i.2] at hi
  rw [List.get?_eq_get j.2] at hj
  simp only [Option.map_some', Option.some.injEq] at hi hj
  have hi2 : (s.chain.get i).height = (i.1 : Int) := by
    rw [← hi]
  have hj2 : (s.chain.get j).height = (j.1 : Int) := by
    rw [← hj]
  rw [hi2, hj2]
  have hnat : i.1 < j.1 := hij
  exact_mod_cast hnat

/-- C7: on a well-formed state the scan of `getStarsByWalletAddress` covers
the whole chain, which is in ascending height order (heights 0, 1, ...,
length-1 in array order); the promise resolves with exactly the decoded
bodies whose owner equals the address, in chain order (the first
component); and each body that fails to decode -- the genesis sentinel in
particular -- contributes one entry to the separately kept error array (the
second component), which never aborts the scan and is dropped, not
surfaced, when the promise resolves with the first component alone. -/
theorem C7_stars_by_owner_scan (s : Blockchain) (address : String) (hwf : Wf s) :
    (getStarsByWalletAddress s address).1 = s.chain.filterMap (starDecode address)
    ∧ (getStarsByWalletAddress s address).2
        = s.chain.filter (fun b => (getBData b.body).isNone)
    ∧ s.chain.Pairwise (fun x y => x.height < y.height) := by
  refine ⟨?_, ?_, wf_heights_ascending s hwf⟩
  · rw [getStarsByWalletAddress, starScan_foldl]
    simp
  · rw [getStarsByWalletAddress, starScan_foldl]
    simp

/-- Witness for C7: on the three-block chain holding the genesis sentinel
and one star each for owners a and b, the scan for address a returns
exactly the claim owned by a, records exactly the genesis block as the one
decode failure, and the chain is in ascending height order. -/
theorem C7_witness :
    Wf sStars
    ∧ ((getStarsByWalletAddress sStars "a").1 = sStars.chain.filterMap (starDecode "a")
        ∧ (getStarsByWalletAddress sStars "a").2
            = sStars.chain.filter (fun b => (getBData b.body).isNone)
        ∧ sStars.chain.Pairwise (fun x y => x.height < y.height)) :=
  ⟨by decide, C7_stars_by_owner_scan sStars "a" (by decide)⟩

theorem addBlock_resolved_body (H : HashFn) (now : Nat) (s : Blockchain) (body : Body)
    (b : Block) (h : (addBlock H now s body).2 = AbResult.resolved b) : b.body = body :=
  (addBlock_resolved_shape H now s body b h).2.1

/-- C5: with a fresh message, a verifier that answers false makes
`submitStar` reject with the BAD_SIGNATURE error and leaves the state
unchanged; a verifier that answers true makes it build the star-claim body
(owner = submitted address, signature, message, star) and delegate to
`_addBlock` -- the state is whatever `_addBlock` leaves -- and whenever the
promise resolves with a block, that block is the one `_addBlock` resolved
with and its decoded body's owner is the submitted address. -/
theorem C5_fresh_redemption (H : HashFn) (verify : String → String → String → Bool)
    (now : Nat) (s : Blockchain) (a msg sig st : String)
    (hfresh : freshCheck now msg = true) :
    (verify msg a sig = false →
        submitStar H verify now s a msg sig st = (s, SsResult.rejectedNotVerified))
    ∧ (verify msg a sig = true →
        (submitStar H verify now s a msg sig st).1
          = (addBlock H now s (Body.claim (StarClaim.mk a sig msg st))).1
        ∧ ∀ b, (submitStar H verify now s a msg sig st).2 = SsResult.resolved b →
            (addBlock H now s (Body.claim (StarClaim.mk a sig msg st))).2
                = AbResult.resolved b
            ∧ (getBData b.body).map StarClaim.owner = some a) := by
  constructor
  · intro hv
    unfold submitStar
    rw [hfresh, if_pos rfl, hv]
    simp
  · intro hv
    constructor
    · unfold submitStar
      rw [hfresh, if_pos rfl, hv, if_pos rfl]
    · intro b hres
      unfold submitStar at hres
      rw [hfresh, if_pos rfl, hv, if_pos rfl] at hres
      simp only at hres
      cases hab : (addBlock H now s (Body.claim (StarClaim.mk a sig msg st))).2 with
      | resolved c =>
        rw [hab] at hres
        simp only at hres
        cases hres
        refine ⟨rfl, ?_⟩
        have hbody := addBlock_resolved_body H now s (Body.claim (StarClaim.mk a sig msg st)) b hab
        rw [hbody]
        rfl
      | rejectedInvalid log => rw [hab] at hres; cases hres
      | rejectedTypeError => rw [hab] at hres; cases hres
      | crashed => rw [hab] at hres; cases hres
      | diverged => rw [hab] at hres; cases hres

/-- Witness for C5: with the fresh message `msgW`, the rejecting verifier
leaves the genesis state unchanged with the BAD_SIGNATURE rejection, and
the accepting verifier resolves with the block `bW2`, which `_addBlock`
resolved with and whose decoded body's owner is the submitted address. -/
theorem C5_witness :
    freshCheck 100 msgW = true
    ∧ submitStar H0 vFalse 100 s0 "a" msgW "sig" "st" = (s0, SsResult.rejectedNotVerified)
    ∧ ((addBlock H0 100 s0 (Body.claim (StarClaim.mk "a" "sig" msgW "st"))).2
          = AbResult.resolved bW2
        ∧ (getBData bW2.body).map StarClaim.owner = some "a") :=
  ⟨by decide,
   (C5_fresh_redemption H0 vFalse 100 s0 "a" msgW "sig" "st" (by decide)).1 rfl,
   ((C5_fresh_redemption H0 vTrue 100 s0 "a" msgW "sig" "st" (by decide)).2 rfl).2 bW2
     (by decide)⟩
